import Mathlib

/-!
Verification of the Dot Traffic routing core (`src/app.py`).

Texts are modelled as `List Char` (the source handles ASCII email text);
`lc` converts a Lean string literal to that representation.  The Airtable
record store is modelled as explicit state (`StoreState`); every store call
of the source is a function of that state together with a failure flag that
models the `try/except` wrappers (an exception makes the wrapped call take
its `except` branch).  The external classifier ("oracle") is a parameter:
a function from the structured context the source renders into its prompt
to the parsed routing suggestion.
-/

set_option maxHeartbeats 1000000

namespace DotTraffic

def lc (s : String) : List Char := s.data

/-- Python whitespace class `\s` / `str.strip` (ASCII). -/
def pySpace (c : Char) : Bool :=
  c = ' ' || c = '\t' || c = '\n' || c = '\r' || c = '\x0b' || c = '\x0c'

/-- Python regex word character `\w` (ASCII). -/
def isWordChar (c : Char) : Bool := c.isAlpha || c.isDigit || c = '_'

/-- Python `str.strip()`. -/
def pyStrip (t : List Char) : List Char :=
  ((t.dropWhile pySpace).reverse.dropWhile pySpace).reverse

/-- The value `content.strip().upper()` as computed at app.py line 396. -/
def contentUpper (content : List Char) : List Char :=
  (pyStrip content).map Char.toUpper

/-- The registry `VALID_CLIENT_CODES` (app.py line 28), in source order. -/
def VALID_CLIENT_CODES : List (List Char) :=
  [lc "ONE", lc "ONS", lc "ONB", lc "SKY", lc "TOW", lc "FIS",
   lc "FST", lc "WKA", lc "HUN", lc "LAB", lc "EON", lc "OTH"]

/-- The alias map `CLIENT_NAME_MAPPING` (app.py lines 31-55), an association list in the
source insertion-ordered dict order. -/
def CLIENT_NAME_MAPPING : List (List Char × List Char) :=
  [(lc "one nz", lc "ONE"), (lc "one", lc "ONE"), (lc "ons", lc "ONS"),
   (lc "onb", lc "ONB"), (lc "simplification", lc "ONS"),
   (lc "one nz simplification", lc "ONS"), (lc "one nz - simplification", lc "ONS"),
   (lc "business", lc "ONB"), (lc "one nz business", lc "ONB"),
   (lc "one nz - business", lc "ONB"), (lc "sky", lc "SKY"),
   (lc "sky tv", lc "SKY"), (lc "tower", lc "TOW"),
   (lc "tower insurance", lc "TOW"), (lc "fisher funds", lc "FIS"),
   (lc "fisherfunds", lc "FIS"), (lc "firestop", lc "FST"),
   (lc "whakarongorau", lc "WKA"), (lc "healthline", lc "WKA"),
   (lc "labour", lc "LAB"), (lc "eon fibre", lc "EON"),
   (lc "eonfibre", lc "EON"), (lc "hunch", lc "HUN")]

/-- Consume a maximal run of whitespace (`\s+` greedy tail). -/
def dropSpacesAll : List Char → List Char
  | [] => []
  | c :: rest => if pySpace c then dropSpacesAll rest else c :: rest

/-- Whitespace run `\s+`: at least one whitespace char, then the maximal run.  Since the
regex continues with `\d`, which is disjoint from `\s`, greedy matching
without backtracking is exact. -/
def dropSpaces1 : List Char → Option (List Char)
  | [] => none
  | c :: rest => if pySpace c then some (dropSpacesAll rest) else none

/-- Match `([A-Z]{3})\s+(\d{3})\b` at the head of `t`, returning the
letter group and the digit group.  The leading `\b` is checked by the
caller (it only depends on the preceding character). -/
def jobPatternAt : List Char → Option (List Char × List Char)
  | a :: b :: c :: rest =>
    if a.isUpper && b.isUpper && c.isUpper then
      match dropSpaces1 rest with
      | some (d :: e :: f :: rest2) =>
        if d.isDigit && e.isDigit && f.isDigit &&
            (match rest2 with | [] => true | g :: _ => !isWordChar g) then
          some ([a, b, c], [d, e, f])
        else none
      | _ => none
    else none
  | _ => none

/-- Word boundary `\b` before a position whose character is a word character: the
preceding character (if any) must not be a word character. -/
def boundaryBefore : Option Char → Bool
  | none => true
  | some c => !isWordChar c

/-- The `re.search` loop: try the pattern at each position left to right;
`prev` is the character before the current position. -/
def scanJobPattern : Option Char → List Char → Option (List Char × List Char)
  | _, [] => none
  | prev, c :: rest =>
    match (if boundaryBefore prev then jobPatternAt (c :: rest) else none) with
    | some r => some r
    | none => scanJobPattern (some c) rest

/-- Function `extract_job_number` (app.py lines 285-301): `re.search` the
pattern on `text.upper()`; accept the (single, leftmost) match only if
its letter group is a valid client code. -/
def extract_job_number (text : List Char) : Option (List Char) :=
  if text.isEmpty then none
  else
    match scanJobPattern none (text.map Char.toUpper) with
    | some (code, number) =>
      if code ∈ VALID_CLIENT_CODES then some (code ++ ' ' :: number) else none
    | none => none

/-- If `code` is a literal prefix of `t`, return the remainder. -/
def dropLiteral : List Char → List Char → Option (List Char)
  | [], t => some t
  | _ :: _, [] => none
  | c :: cs, x :: xs => if x = c then dropLiteral cs xs else none

/-- Match `code\b` at the head of `t` (for an alphabetic `code`). -/
def standaloneAt (code t : List Char) : Bool :=
  match dropLiteral code t with
  | some [] => true
  | some (c :: _) => !isWordChar c
  | none => false

def hasStandaloneAux (code : List Char) : Option Char → List Char → Bool
  | _, [] => false
  | prev, c :: rest =>
    (boundaryBefore prev && standaloneAt code (c :: rest)) ||
      hasStandaloneAux code (some c) rest

/-- The search for the code between word boundaries on `text_upper`, viewed as a Bool. -/
def hasStandalone (code t : List Char) : Bool := hasStandaloneAux code none t

/-- Python `needle in hay` substring test. -/
def isSubstring (needle : List Char) : List Char → Bool
  | [] => (dropLiteral needle []).isSome
  | c :: rest => (dropLiteral needle (c :: rest)).isSome || isSubstring needle rest

/-- Function `extract_client_code_from_content` (app.py lines 304-326): first any
valid code as a standalone word in the uppercased text, in registry
order; then the first client-name alias that is a substring of the
lowercased text, in mapping order. -/
def extract_client_code_from_content (text : List Char) : Option (List Char) :=
  if text.isEmpty then none
  else
    let text_lower := text.map Char.toLower
    let text_upper := text.map Char.toUpper
    match VALID_CLIENT_CODES.find? (fun code => hasStandalone code text_upper) with
    | some code => some code
    | none =>
      (CLIENT_NAME_MAPPING.find? fun nc => isSubstring nc.1 text_lower).map fun nc => nc.2

example : extract_job_number (lc "re: TOW 023 update") = some (lc "TOW 023") := by decide
example : extract_job_number (lc "row 023") = none := by decide
example : extract_job_number (lc "XYZ 111 TOW 023") = none := by decide
example : extract_client_code_from_content (lc "maybe tomorrow") = none := by decide
example : extract_client_code_from_content (lc "FST brief for tower insurance") =
    some (lc "FST") := by decide
example : extract_client_code_from_content (lc "is one of the sky options") =
    some (lc "ONE") := by decide

/-! ## Record Store model

The Airtable base is modelled as explicit state: a `Traffic` table of
`TrafficRecord`s (record id plus the fields written at app.py
lines 160-171) and a read-only `Projects` table.  Each wrapper function
of the source takes a `fail` flag modelling its `try/except`: any HTTP or
parsing exception makes the function return its `except`-branch value. -/

structure TrafficFields where
  internetMessageId : List Char := []
  conversationId : List Char := []
  Route : List Char := []
  Status : List Char := []
  JobNumber : List Char := []
  SenderEmail : List Char := []
  Subject : List Char := []
deriving DecidableEq, Repr

structure TrafficRecord where
  id : Nat
  fields : TrafficFields
deriving DecidableEq, Repr

structure ProjectRecord where
  id : Nat
  jobNumber : List Char := []
  jobName : List Char := []
  clientName : List Char := []
  stage : List Char := []
  status : List Char := []
  round : Int := 0
  withClient : Bool := false
  teamsChannelId : Option (List Char) := none
  description : List Char := []
deriving DecidableEq, Repr

structure StoreState where
  traffic : List TrafficRecord := []
  projects : List ProjectRecord := []
  nextId : Nat := 0
deriving DecidableEq, Repr

/-- The dict built by `get_project_by_job_number` (app.py lines 232-242). -/
structure Project where
  recordId : Nat
  jobNumber : List Char
  jobName : List Char
  clientName : List Char
  stage : List Char
  status : List Char
  round : Int
  withClient : Bool
  teamsChannelId : Option (List Char)
deriving DecidableEq, Repr

/-- One entry of the active-jobs listing (app.py lines 268-272). -/
structure ActiveJob where
  jobNumber : List Char
  jobName : List Char
  description : List Char
deriving DecidableEq, Repr

/-- Function `check_duplicate_email` (app.py lines 95-118): filter the Traffic
table by `internetMessageId` and take the first record; missing API key,
empty id, or an exception all yield `None`. -/
def check_duplicate_email (hasKey fail : Bool) (mid : List Char)
    (s : StoreState) : Option TrafficRecord :=
  if !hasKey then none
  else if mid.isEmpty then none
  else if fail then none
  else (s.traffic.filter fun r => r.fields.internetMessageId == mid).head?

/-- Function `check_pending_clarify` (app.py lines 121-146): filter by
`conversationId` and `Status = pending`, take the first record. -/
def check_pending_clarify (hasKey fail : Bool) (cid : List Char)
    (s : StoreState) : Option TrafficRecord :=
  if !hasKey then none
  else if cid.isEmpty then none
  else if fail then none
  else (s.traffic.filter fun r =>
    r.fields.conversationId == cid && r.fields.Status == lc "pending").head?

/-- Function `log_to_traffic_table` (app.py lines 149-180): append a record; on
missing key or exception return `None` and leave the table unchanged. -/
def log_to_traffic_table (hasKey fail : Bool)
    (mid cid route status : List Char) (jobNumber : Option (List Char))
    (sender subject : List Char) (s : StoreState) : Option Nat × StoreState :=
  if !hasKey then (none, s)
  else if fail then (none, s)
  else
    let r : TrafficRecord :=
      { id := s.nextId,
        fields := { internetMessageId := mid, conversationId := cid,
                    Route := route, Status := status,
                    JobNumber := jobNumber.getD [], SenderEmail := sender,
                    Subject := subject } }
    (some s.nextId, { s with traffic := s.traffic ++ [r], nextId := s.nextId + 1 })

/-- The field updates the source patches into a Traffic record
(`Status` alone, or `Status` together with `JobNumber`). -/
structure TrafficUpdate where
  status : Option (List Char) := none
  jobNumber : Option (List Char) := none
deriving DecidableEq, Repr

def applyTrafficUpdate (u : TrafficUpdate) (tf : TrafficFields) : TrafficFields :=
  { tf with Status := u.status.getD tf.Status,
            JobNumber := u.jobNumber.getD tf.JobNumber }

/-- Function `update_traffic_record` (app.py lines 183-201): patch the record with
the given id; failure returns `False` and changes nothing. -/
def update_traffic_record (hasKey fail : Bool) (rid : Nat) (u : TrafficUpdate)
    (s : StoreState) : Bool × StoreState :=
  if !hasKey then (false, s)
  else if fail then (false, s)
  else (true, { s with traffic := s.traffic.map fun r =>
    if r.id = rid then { r with fields := applyTrafficUpdate u r.fields } else r })

/-- Function `get_project_by_job_number` (app.py lines 208-246): filter Projects
by `Job Number`, take the first record and build the project dict. -/
def get_project_by_job_number (hasKey fail : Bool) (jn : List Char)
    (s : StoreState) : Option Project :=
  if !hasKey then none
  else if fail then none
  else
    match (s.projects.filter fun p => p.jobNumber == jn).head? with
    | none => none
    | some record =>
      some { recordId := record.id, jobNumber := record.jobNumber,
             jobName := record.jobName, clientName := record.clientName,
             stage := record.stage, status := record.status,
             round := record.round, withClient := record.withClient,
             teamsChannelId := record.teamsChannelId }

/-- Function `get_active_jobs_for_client` (app.py lines 249-278):
`FIND(code, {Job Number}) = 1` is a prefix test; keep `In Progress` and
`On Hold` projects. -/
def get_active_jobs_for_client (hasKey fail : Bool) (code : List Char)
    (s : StoreState) : List ActiveJob :=
  if !hasKey then []
  else if code.isEmpty then []
  else if fail then []
  else
    (s.projects.filter fun p =>
        code.isPrefixOf p.jobNumber &&
          (p.status == lc "In Progress" || p.status == lc "On Hold")).map
      fun p => { jobNumber := p.jobNumber, jobName := p.jobName,
                 description := p.description }

/-! ## The `/traffic` endpoint (app.py lines 333-648)

The request body, with the `data.get(...)` defaults already applied.
The Anthropic call of Step 4 is a parameter `oracle`: a function from the
structured context rendered into `full_content` (app.py lines 559-575) to
the parsed JSON routing suggestion.  `Faults` carries one flag per
store-call site, modelling which calls raise. -/

structure TrafficRequest where
  emailContent : List Char := []
  subjectLine : List Char := []
  senderEmail : List Char := []
  senderName : List Char := []
  allRecipients : List (List Char) := []
  hasAttachments : Bool := false
  attachmentNames : List (List Char) := []
  source : List Char := lc "email"
  internetMessageId : List Char := []
  conversationId : List Char := []
deriving DecidableEq, Repr

structure Faults where
  dupF : Bool := false
  pendingF : Bool := false
  projReplyF : Bool := false
  projSuggestedF : Bool := false
  projStep2F : Bool := false
  projOracleF : Bool := false
  activeF : Bool := false
  logF : Bool := false
  updateF : Bool := false
deriving DecidableEq, Repr

def noFaults : Faults := {}

/-- The information content of `full_content` (app.py lines 559-575). -/
structure OracleContext where
  source : List Char
  subject : List Char
  senderName : List Char
  senderEmail : List Char
  allRecipients : List (List Char)
  hasAttachments : Bool
  attachmentNames : List (List Char)
  extractedJobNumber : Option (List Char)
  jobExists : Bool
  clientCode : Option (List Char)
  activeJobs : List ActiveJob
  content : List Char
deriving DecidableEq, Repr

/-- The parsed JSON suggestion returned by the classifier.  `jobNumber`
is `none` for JSON `null`/missing; a Python-falsy empty string is
modelled as `some []` and handled by `optTruthy`. -/
structure OracleRouting where
  route : List Char
  confidence : List Char
  jobNumber : Option (List Char)
  reason : List Char
deriving DecidableEq, Repr

/-- Python truthiness of an optional string. -/
def optTruthy : Option (List Char) → Bool
  | none => false
  | some x => !x.isEmpty

/-- The enrichment keys copied from a validated project
(app.py lines 597-603 and the Step 1 update responses). -/
structure Enrichment where
  jobName : List Char
  clientName : List Char
  currentRound : Int
  currentStage : List Char
  withClient : Bool
  teamsChannelId : Option (List Char)
  projectRecordId : Nat
deriving DecidableEq, Repr

def enrichOf (p : Project) : Enrichment :=
  { jobName := p.jobName, clientName := p.clientName, currentRound := p.round,
    currentStage := p.stage, withClient := p.withClient,
    teamsChannelId := p.teamsChannelId, projectRecordId := p.recordId }

/-- The caller-visible JSON body; a `none`/`[]` field models an absent key. -/
structure TrafficResponse where
  route : List Char := []
  confidence : Option (List Char) := none
  jobNumber : Option (List Char) := none
  reason : List Char := []
  originalRoute : Option (List Char) := none
  originalRecordId : Option Nat := none
  enrichment : Option Enrichment := none
  clientCode : Option (List Char) := none
  source : Option (List Char) := none
  senderEmail : Option (List Char) := none
  senderName : Option (List Char) := none
  clarifyEmail : Option (List Char) := none
deriving DecidableEq, Repr

inductive TrafficResult where
  | ok (resp : TrafficResponse) (state : StoreState)
  | clientError
deriving DecidableEq, Repr

def resultResp : TrafficResult → Option TrafficResponse
  | .ok r _ => some r
  | .clientError => none

def resultState : TrafficResult → Option StoreState
  | .ok _ s => some s
  | .clientError => none

/-- Affirmative vocabulary of app.py lines 397-402. -/
def affirmatives : List (List Char) :=
  [lc "YES", lc "YES.", lc "YES!", lc "YEP", lc "YUP", lc "YEAH",
   lc "CONFIRM", lc "CONFIRMED", lc "CORRECT", lc "THAT\x27S RIGHT",
   lc "THATS RIGHT", lc "THAT\x27S THE ONE", lc "THATS THE ONE",
   lc "THAT\x27S IT", lc "THATS IT", lc "BINGO", lc "SPOT ON", lc "PERFECT"]

def isYes (cu : List Char) : Bool :=
  affirmatives.contains cu || (lc "YES").isPrefixOf cu

def triageWords : List (List Char) :=
  [lc "TRIAGE", lc "TRIAGE.", lc "NEW JOB", lc "NEW"]

def isTriage (cu : List Char) : Bool := triageWords.contains cu

/-- The token `job_number.split()[0]`: the first whitespace-separated token. -/
def splitFirstToken (s : List Char) : List Char :=
  (s.dropWhile pySpace).takeWhile fun c => !pySpace c

/-- Step 1 / Step 2 job extraction: subject first, then body
(app.py lines 391-393 and 520-522). -/
def extractedJobNumberOf (req : TrafficRequest) : Option (List Char) :=
  match extract_job_number req.subjectLine with
  | some j => some j
  | none => extract_job_number req.emailContent

/-- Step 0 lookup (app.py lines 368-369). -/
def step0 (req : TrafficRequest) (f : Faults) (s : StoreState) :
    Option TrafficRecord :=
  if req.internetMessageId.isEmpty then none
  else check_duplicate_email true f.dupF req.internetMessageId s

/-- Step 1 lookup (app.py lines 381-383). -/
def step1Pending (req : TrafficRequest) (f : Faults) (s : StoreState) :
    Option TrafficRecord :=
  if req.conversationId.isEmpty then none
  else check_pending_clarify true f.pendingF req.conversationId s

/-- Duplicate short-circuit response (app.py lines 371-376). -/
def duplicateResponse (existing : TrafficRecord) : TrafficResponse :=
  { route := lc "duplicate", reason := lc "Email already processed",
    originalRoute := some existing.fields.Route,
    originalRecordId := some existing.id }

/-- Triage-reply response (app.py lines 417-425). -/
def triageReplyResponse (req : TrafficRequest) : TrafficResponse :=
  { route := lc "triage", confidence := some (lc "high"), jobNumber := none,
    reason := lc "User requested triage in clarify reply",
    senderEmail := some req.senderEmail, senderName := some req.senderName,
    source := some req.source }

/-- Valid job number in a clarify reply (app.py lines 443-459). -/
def updateReplyResponse (req : TrafficRequest) (rj : List Char)
    (project : Project) : TrafficResponse :=
  { route := lc "update", confidence := some (lc "high"), jobNumber := some rj,
    enrichment := some (enrichOf project),
    clientCode := some (splitFirstToken rj),
    reason := lc "Job number provided in clarify reply",
    senderEmail := some req.senderEmail, senderName := some req.senderName,
    source := some req.source }

def clarifyNotFoundEmail (senderName rj : List Char) : List Char :=
  lc "<p>Hi " ++ (if senderName.isEmpty then lc "there" else senderName) ++
    lc ",</p><p>I couldn\x27t find job <strong>" ++ rj ++
    lc "</strong> in the system.</p><p>Please check the job number and try again, or reply <strong>TRIAGE</strong> if this is a new job.</p><p>Dot</p>"

/-- Invalid job number in a clarify reply (app.py lines 461-470). -/
def jobNotFoundResponse (req : TrafficRequest) (rj : List Char) : TrafficResponse :=
  { route := lc "clarify", confidence := some (lc "low"),
    reason := lc "Job " ++ rj ++ lc " not found in system",
    senderEmail := some req.senderEmail, senderName := some req.senderName,
    source := some req.source,
    clarifyEmail := some (clarifyNotFoundEmail req.senderName rj) }

/-- Confirmed suggested job (app.py lines 488-504). -/
def confirmedResponse (req : TrafficRequest) (jn : List Char)
    (project : Project) : TrafficResponse :=
  { route := lc "update", confidence := some (lc "high"), jobNumber := some jn,
    enrichment := some (enrichOf project),
    clientCode := some (splitFirstToken jn),
    reason := lc "User confirmed suggested job",
    senderEmail := some req.senderEmail, senderName := some req.senderName,
    source := some req.source }

def askJobEmail (senderName : List Char) : List Char :=
  lc "<p>Hi " ++ (if senderName.isEmpty then lc "there" else senderName) ++
    lc ",</p><p>Thanks! Could you reply with the job number?</p><p>Dot</p>"

/-- Affirmative reply but no (valid) suggested job stored
(app.py lines 506-515). -/
def noSuggestedResponse (req : TrafficRequest) : TrafficResponse :=
  { route := lc "clarify", confidence := some (lc "low"),
    reason := lc "Confirmation received but no job was suggested",
    senderEmail := some req.senderEmail, senderName := some req.senderName,
    source := some req.source,
    clarifyEmail := some (askJobEmail req.senderName) }

/-- Step 2 validation of the extracted job number (app.py lines 525-527). -/
def step2Project (req : TrafficRequest) (f : Faults) (s : StoreState) :
    Option Project :=
  match extractedJobNumberOf req with
  | some jn => get_project_by_job_number true f.projStep2F jn s
  | none => none

/-- Step 3 client code (app.py lines 532-541): job-number prefix first,
else client-code extraction on subject then body, each guarded by Python
truthiness. -/
def clientCodeOf (req : TrafficRequest) : Option (List Char) :=
  let c0 := (extractedJobNumberOf req).map splitFirstToken
  let c1 := if optTruthy c0 then c0 else extract_client_code_from_content req.subjectLine
  if optTruthy c1 then c1 else extract_client_code_from_content req.emailContent

/-- Step 3 active-jobs listing (app.py lines 543-544). -/
def activeJobsOf (req : TrafficRequest) (f : Faults) (s : StoreState) :
    List ActiveJob :=
  if optTruthy (clientCodeOf req) then
    get_active_jobs_for_client true f.activeF ((clientCodeOf req).getD []) s
  else []

/-- The context rendered into `full_content` (app.py lines 559-575). -/
def oracleContextOf (req : TrafficRequest) (f : Faults) (s : StoreState) :
    OracleContext :=
  { source := req.source, subject := req.subjectLine,
    senderName := req.senderName, senderEmail := req.senderEmail,
    allRecipients := req.allRecipients, hasAttachments := req.hasAttachments,
    attachmentNames := req.attachmentNames,
    extractedJobNumber := extractedJobNumberOf req,
    jobExists := (step2Project req f s).isSome,
    clientCode := clientCodeOf req, activeJobs := activeJobsOf req f s,
    content := req.emailContent }

/-- The route/confidence/reason/enrichment left on the routing dict after
Step 5. -/
structure Reconciled where
  route : List Char
  confidence : List Char
  reason : List Char
  enrichment : Option Enrichment
deriving DecidableEq, Repr

/-- Step 5 enrichment and validation (app.py lines 592-619). -/
def reconcile (fail : Bool) (s : StoreState) (routing : OracleRouting)
    (job_number : Option (List Char)) (project : Option Project) : Reconciled :=
  if project.isSome ∧ routing.jobNumber = job_number then
    { route := routing.route, confidence := routing.confidence,
      reason := routing.reason, enrichment := project.map enrichOf }
  else if optTruthy routing.jobNumber = true ∧ routing.jobNumber ≠ job_number then
    match routing.jobNumber with
    | some jn =>
      match get_project_by_job_number true fail jn s with
      | some mp =>
        { route := routing.route, confidence := routing.confidence,
          reason := routing.reason, enrichment := some (enrichOf mp) }
      | none =>
        { route := lc "clarify", confidence := lc "low",
          reason := lc "Matched job " ++ jn ++ lc " not found in system",
          enrichment := none }
    | none =>
      { route := routing.route, confidence := routing.confidence,
        reason := routing.reason, enrichment := none }
  else
    { route := routing.route, confidence := routing.confidence,
      reason := routing.reason, enrichment := none }

/-- The response body returned from Steps 2-6 (`jsonify(routing)` after
the Step 5 mutations and `source`/`clientCode` attachment). -/
def classifyResponse (req : TrafficRequest) (routing : OracleRouting)
    (adj : Reconciled) : TrafficResponse :=
  { route := adj.route, confidence := some adj.confidence,
    jobNumber := routing.jobNumber, reason := adj.reason,
    enrichment := adj.enrichment, clientCode := clientCodeOf req,
    source := some req.source }

/-- Steps 2-6 (app.py lines 517-636): extraction, oracle call,
reconciliation, and the final Traffic-table log. -/
def classifyRoute (req : TrafficRequest) (f : Faults)
    (oracle : OracleContext → OracleRouting) (s : StoreState) : TrafficResult :=
  let routing := oracle (oracleContextOf req f s)
  let adj := reconcile f.projOracleF s routing (extractedJobNumberOf req)
    (step2Project req f s)
  let status := if adj.route = lc "clarify" ∨ adj.route = lc "confirm"
    then lc "pending" else lc "processed"
  TrafficResult.ok (classifyResponse req routing adj)
    (log_to_traffic_table true f.logF req.internetMessageId req.conversationId
      adj.route status routing.jobNumber req.senderEmail req.subjectLine s).2

/-- Step 1 branch logic for a reply to a pending clarification
(app.py lines 385-515); a reply matching no branch falls through to
Steps 2-6. -/
def handlePendingReply (req : TrafficRequest) (f : Faults)
    (oracle : OracleContext → OracleRouting) (s : StoreState)
    (p : TrafficRecord) : TrafficResult :=
  let cu := contentUpper req.emailContent
  if isTriage cu then
    let s1 := (log_to_traffic_table true f.logF req.internetMessageId
      req.conversationId (lc "triage") (lc "processed") none req.senderEmail
      req.subjectLine s).2
    let s2 := (update_traffic_record true f.updateF p.id
      { status := some (lc "resolved") } s1).2
    TrafficResult.ok (triageReplyResponse req) s2
  else
    match extractedJobNumberOf req with
    | some rj =>
      match get_project_by_job_number true f.projReplyF rj s with
      | some project =>
        let s1 := (log_to_traffic_table true f.logF req.internetMessageId
          req.conversationId (lc "update") (lc "processed") (some rj)
          req.senderEmail req.subjectLine s).2
        let s2 := (update_traffic_record true f.updateF p.id
          { status := some (lc "resolved"), jobNumber := some rj } s1).2
        TrafficResult.ok (updateReplyResponse req rj project) s2
      | none => TrafficResult.ok (jobNotFoundResponse req rj) s
    | none =>
      if isYes cu then
        match (if p.fields.JobNumber.isEmpty then none
               else get_project_by_job_number true f.projSuggestedF
                 p.fields.JobNumber s) with
        | some project =>
          let s1 := (log_to_traffic_table true f.logF req.internetMessageId
            req.conversationId (lc "update") (lc "processed")
            (some p.fields.JobNumber) req.senderEmail req.subjectLine s).2
          let s2 := (update_traffic_record true f.updateF p.id
            { status := some (lc "resolved") } s1).2
          TrafficResult.ok (confirmedResponse req p.fields.JobNumber project) s2
        | none => TrafficResult.ok (noSuggestedResponse req) s
      else classifyRoute req f oracle s

/-- The `/traffic` handler (app.py lines 333-636). -/
def traffic (req : TrafficRequest) (f : Faults)
    (oracle : OracleContext → OracleRouting) (s : StoreState) : TrafficResult :=
  if req.emailContent.isEmpty then TrafficResult.clientError
  else
    match step0 req f s with
    | some existing => TrafficResult.ok (duplicateResponse existing) s
    | none =>
      match step1Pending req f s with
      | some p => handlePendingReply req f oracle s p
      | none => classifyRoute req f oracle s

/-! ## Concrete fixtures used by witnesses and counterexamples -/

/-- Number of `pending` entries a conversation has in the Traffic log. -/
def pendingCount (c : List Char) (s : StoreState) : Nat :=
  s.traffic.countP fun r =>
    r.fields.conversationId == c && r.fields.Status == lc "pending"

/-- A pending clarification logged for conversation `C1`. -/
def pendingRec : TrafficRecord :=
  { id := 0,
    fields := { internetMessageId := lc "M0", conversationId := lc "C1",
                Route := lc "clarify", Status := lc "pending",
                JobNumber := lc "ONE 010" } }

/-- The `ONE 010` project record. -/
def projOne010 : ProjectRecord :=
  { id := 7, jobNumber := lc "ONE 010", jobName := lc "Retention Campaign",
    clientName := lc "One NZ", stage := lc "Design",
    status := lc "In Progress", round := 2, withClient := false,
    teamsChannelId := none, description := lc "Retention work" }

/-- The `ONE 100` project record. -/
def projOne100 : ProjectRecord :=
  { id := 8, jobNumber := lc "ONE 100", jobName := lc "Launch",
    clientName := lc "One NZ", stage := lc "Build",
    status := lc "In Progress", round := 1, withClient := true,
    teamsChannelId := some (lc "chan1"), description := lc "Launch work" }

/-- The project dict `get_project_by_job_number` builds for `ONE 010`. -/
def projOne010Lookup : Project :=
  { recordId := 7, jobNumber := lc "ONE 010", jobName := lc "Retention Campaign",
    clientName := lc "One NZ", stage := lc "Design", status := lc "In Progress",
    round := 2, withClient := false, teamsChannelId := none }

/-- Store with one pending clarification for `C1` and project `ONE 010`. -/
def storePending : StoreState :=
  { traffic := [pendingRec], projects := [projOne010], nextId := 1 }

/-- Store with one pending clarification for `C1`, projects `ONE 010`
and `ONE 100`, and no `ONE 999` / `TOW 023`. -/
def storePending2 : StoreState :=
  { traffic := [pendingRec], projects := [projOne010, projOne100], nextId := 1 }

/-- A classifier that always answers `clarify`. -/
def clarifyOracle : OracleContext → OracleRouting := fun _ =>
  { route := lc "clarify", confidence := lc "low", jobNumber := none,
    reason := lc "need more info" }

/-- Reply with an affirmative body but a job number in the subject. -/
def reqYesSubjectJob : TrafficRequest :=
  { emailContent := lc "Yes", subjectLine := lc "TOW 023",
    internetMessageId := lc "M4", conversationId := lc "C1" }

/-- Reply with body exactly `"Yes"` and no job number anywhere. -/
def reqYesPlain : TrafficRequest :=
  { emailContent := lc "Yes", internetMessageId := lc "M4",
    conversationId := lc "C1" }

/-- A fresh message starting conversation `C1`. -/
def reqFresh : TrafficRequest :=
  { emailContent := lc "hello hello", internetMessageId := lc "M1",
    conversationId := lc "C1" }

/-- A free-text reply matching none of the Step 1 branches. -/
def reqAmbiguous : TrafficRequest :=
  { emailContent := lc "maybe tomorrow", internetMessageId := lc "M2",
    conversationId := lc "C1" }

/-- Reply whose subject holds a valid job number and whose body holds an
invalid one. -/
def reqSubjectValidBodyInvalid : TrafficRequest :=
  { emailContent := lc "ONE 999", subjectLine := lc "ONE 100",
    internetMessageId := lc "M5", conversationId := lc "C1" }

/-- Reply whose body holds an invalid job number (and empty subject). -/
def reqBodyInvalid : TrafficRequest :=
  { emailContent := lc "ONE 111", internetMessageId := lc "M6",
    conversationId := lc "C1" }

/-- A resubmission of the already-logged message `M0`. -/
def reqResendM0 : TrafficRequest :=
  { emailContent := lc "same email again", internetMessageId := lc "M0",
    conversationId := lc "C1" }

example :
    (resultResp (traffic reqYesSubjectJob noFaults clarifyOracle
      storePending)).map (fun r => r.route) = some (lc "clarify") := by decide

example :
    resultState (traffic reqYesSubjectJob noFaults clarifyOracle storePending) =
      some storePending := by decide

example :
    (resultResp (traffic reqYesPlain noFaults clarifyOracle
      storePending)).map (fun r => (r.route, r.jobNumber)) =
      some (lc "update", some (lc "ONE 010")) := by decide

example :
    ((resultState (traffic reqFresh noFaults clarifyOracle {})).bind fun s1 =>
      (resultState (traffic reqAmbiguous noFaults clarifyOracle s1)).map fun s2 =>
        (pendingCount (lc "C1") s1, pendingCount (lc "C1") s2)) =
      some (1, 2) := by decide

/-! ## General lemmas -/

theorem traffic_eq_handlePending (req : TrafficRequest) (f : Faults)
    (oracle : OracleContext → OracleRouting) (s : StoreState)
    (p : TrafficRecord) (h0 : req.emailContent.isEmpty = false)
    (h1 : step0 req f s = none) (h2 : step1Pending req f s = some p) :
    traffic req f oracle s = handlePendingReply req f oracle s p := by
  simp [traffic, h0, h1, h2]

theorem traffic_eq_classify (req : TrafficRequest) (f : Faults)
    (oracle : OracleContext → OracleRouting) (s : StoreState)
    (h0 : req.emailContent.isEmpty = false)
    (h1 : step0 req f s = none) (h2 : step1Pending req f s = none) :
    traffic req f oracle s = classifyRoute req f oracle s := by
  simp [traffic, h0, h1, h2]

/-- The character preceding position `i` of a scan that started with
preceding character `p0`. -/
def prevAt (p0 : Option Char) (t : List Char) : Nat → Option Char
  | 0 => p0
  | j + 1 => t[j]?

theorem jobPatternAt_nil : jobPatternAt [] = none := rfl

/-- Leftmost-match semantics of `scanJobPattern`: if the pattern matches at
position `i` (with its leading word boundary) and matches at no earlier
position, the scan returns exactly that match. -/
theorem scanJobPattern_eq_of_first :
    ∀ (t : List Char) (p0 : Option Char) (i : Nat) (w : List Char × List Char),
      boundaryBefore (prevAt p0 t i) = true →
      jobPatternAt (t.drop i) = some w →
      (∀ j, j < i → ¬(boundaryBefore (prevAt p0 t j) = true ∧
        (jobPatternAt (t.drop j)).isSome = true)) →
      scanJobPattern p0 t = some w := by
  intro t
  induction t with
  | nil =>
    intro p0 i w _ hm _
    rw [List.drop_nil, jobPatternAt_nil] at hm
    exact absurd hm (by simp)
  | cons c rest ih =>
    intro p0 i w hb hm hmin
    cases i with
    | zero =>
      have hb0 : boundaryBefore p0 = true := hb
      rw [List.drop_zero] at hm
      simp [scanJobPattern, hb0, hm]
    | succ i' =>
      have hstep : scanJobPattern p0 (c :: rest) = scanJobPattern (some c) rest := by
        have h0 := hmin 0 (Nat.succ_pos i')
        by_cases hbp : boundaryBefore p0 = true
        · have hjp : jobPatternAt (c :: rest) = none := by
            cases hx : jobPatternAt (c :: rest) with
            | none => rfl
            | some r =>
              exact absurd ⟨hbp, by simp [List.drop_zero, hx]⟩ h0
          simp [scanJobPattern, hbp, hjp]
        · simp [scanJobPattern, hbp]
      rw [hstep]
      refine ih (some c) i' w ?_ ?_ ?_
      · have hpv : prevAt (some c) rest i' = prevAt p0 (c :: rest) (i' + 1) := by
          cases i' with
          | zero => simp [prevAt]
          | succ j => simp [prevAt]
        rw [hpv]; exact hb
      · simpa using hm
      · intro j hj
        have h := hmin (j + 1) (Nat.succ_lt_succ hj)
        have hpv : prevAt (some c) rest j = prevAt p0 (c :: rest) (j + 1) := by
          cases j with
          | zero => simp [prevAt]
          | succ j' => simp [prevAt]
        rw [hpv]
        simpa using h

/-- Predicate: `w` occurs in `t` as a standalone word: surrounded by
non-word characters (or the ends of the text). -/
def StandaloneOccur (w t : List Char) : Prop :=
  ∃ pre post, t = pre ++ w ++ post ∧
    (pre = [] ∨ ∃ p, pre.getLast? = some p ∧ isWordChar p = false) ∧
    (post = [] ∨ ∃ q, post.head? = some q ∧ isWordChar q = false)

theorem dropLiteral_self_append (w post : List Char) :
    dropLiteral w (w ++ post) = some post := by
  induction w with
  | nil => rfl
  | cons c cs ih => simp [dropLiteral, ih]

theorem standaloneAt_of_head (w post : List Char)
    (hq : post = [] ∨ ∃ q, post.head? = some q ∧ isWordChar q = false) :
    standaloneAt w (w ++ post) = true := by
  rcases hq with rfl | ⟨q, hq1, hq2⟩
  · have h : dropLiteral w w = some [] := by
      simpa using dropLiteral_self_append w []
    simp [standaloneAt, h]
  · cases post with
    | nil => simp at hq1
    | cons x xs =>
      simp only [List.head?_cons, Option.some.injEq] at hq1
      subst hq1
      simp [standaloneAt, dropLiteral_self_append, hq2]

theorem hasStandaloneAux_of_occur :
    ∀ (pre : List Char) (prev : Option Char) (rest w : List Char),
      w ≠ [] →
      (pre = [] → boundaryBefore prev = true) →
      (∀ p, pre.getLast? = some p → isWordChar p = false) →
      standaloneAt w rest = true →
      hasStandaloneAux w prev (pre ++ rest) = true := by
  intro pre
  induction pre with
  | nil =>
    intro prev rest w hw hpre _ hat
    have hb : boundaryBefore prev = true := hpre rfl
    cases rest with
    | nil =>
      cases w with
      | nil => exact absurd rfl hw
      | cons a as => simp [standaloneAt, dropLiteral] at hat
    | cons c cs =>
      simp [hasStandaloneAux, hb, hat]
  | cons p pre' ih =>
    intro prev rest w hw _ hlast hat
    have htail : hasStandaloneAux w (some p) (pre' ++ rest) = true := by
      refine ih (some p) rest w hw ?_ ?_ hat
      · intro hpre'
        subst hpre'
        have := hlast p (by simp)
        simp [boundaryBefore, this]
      · intro q hq
        refine hlast q ?_
        cases pre' with
        | nil => simp at hq
        | cons x xs => simpa [List.getLast?_cons_cons] using hq
    simp [hasStandaloneAux, htail]

theorem hasStandalone_of_occur (w t : List Char) (hw : w ≠ [])
    (h : StandaloneOccur w t) : hasStandalone w t = true := by
  obtain ⟨pre, post, rfl, hpre, hpost⟩ := h
  rw [hasStandalone, List.append_assoc]
  refine hasStandaloneAux_of_occur pre none (w ++ post) w hw (fun _ => rfl) ?_
    (standaloneAt_of_head w post hpost)
  intro p hp
  rcases hpre with rfl | ⟨q, hq1, hq2⟩
  · simp at hp
  · rw [hq1] at hp
    cases hp
    exact hq2

theorem hasStandalone_ne_nil (w t : List Char)
    (h : hasStandalone w t = true) : t ≠ [] := by
  intro ht
  subst ht
  simp [hasStandalone, hasStandaloneAux] at h

theorem countP_map_le {α : Type} (p : α → Bool) (g : α → α)
    (hpg : ∀ a, p (g a) = true → p a = true) :
    ∀ l : List α, (l.map g).countP p ≤ l.countP p := by
  intro l
  induction l with
  | nil => simp
  | cons a l ih =>
    rw [List.map_cons, List.countP_cons, List.countP_cons]
    have hif : (if p (g a) then 1 else 0) ≤ (if p a then 1 else 0) := by
      by_cases hga : p (g a) = true
      · simp [hga, hpg a hga]
      · simp only [Bool.not_eq_true] at hga
        simp [hga]
    exact Nat.add_le_add ih hif

/-- Logging a `processed` entry never changes the pending count of a
conversation. -/
theorem pendingCount_log_processed (hk fl : Bool)
    (mid cid route : List Char) (jn : Option (List Char))
    (se su : List Char) (s : StoreState) (c : List Char) :
    pendingCount c (log_to_traffic_table hk fl mid cid route (lc "processed")
      jn se su s).2 = pendingCount c s := by
  unfold log_to_traffic_table
  split
  · rfl
  · split
    · rfl
    · have h : (lc "processed" == lc "pending") = false := by decide
      simp [pendingCount, List.countP_append, List.countP_cons, h]

/-- Marking a record `resolved` never increases the pending count of a
conversation. -/
theorem pendingCount_update_resolved (hk fl : Bool) (rid : Nat)
    (u : TrafficUpdate) (hu : u.status = some (lc "resolved"))
    (s : StoreState) (c : List Char) :
    pendingCount c (update_traffic_record hk fl rid u s).2 ≤ pendingCount c s := by
  unfold update_traffic_record
  split
  · exact Nat.le_refl _
  · split
    · exact Nat.le_refl _
    · refine countP_map_le _ _ ?_ s.traffic
      intro r hr
      by_cases hid : r.id = rid
      · exfalso
        rw [if_pos hid] at hr
        simp only [applyTrafficUpdate, hu, Option.getD_some] at hr
        have : (lc "resolved" == lc "pending") = false := by decide
        simp [this] at hr
      · rwa [if_neg hid] at hr

/-! ## Claims -/

/-- C6 (corrected).  The claim says `extract_job_number` returns the first
pattern match in scan order whose prefix is a valid client code, and
returns nothing only when no such accepted token exists — so an invalid
earliest match would be skipped in favour of a later valid one.  That is
false: the source checks the registry only on the single leftmost regex
match.  `"XYZ 111 TOW 023"` has the accepted token `TOW 023` (position 8,
with its word boundary, and `TOW` is registered, as witnessed by the same
text succeeding without the `XYZ 111` prefix), yet extraction returns
nothing. -/
theorem claim_C6_counterexample :
    extract_job_number (lc "XYZ 111 TOW 023") = none ∧
    boundaryBefore (prevAt none ((lc "XYZ 111 TOW 023").map Char.toUpper) 8) = true ∧
    jobPatternAt (((lc "XYZ 111 TOW 023").map Char.toUpper).drop 8) =
      some (lc "TOW", lc "023") ∧
    lc "TOW" ∈ VALID_CLIENT_CODES ∧
    extract_job_number (lc "TOW 023") = some (lc "TOW 023") := by decide

/-- C6 (amended).  For every text and position `i`: if the (uppercased)
text has a pattern match `CCC NNN` at `i` with its leading word boundary,
and no earlier position matches, then `extract_job_number` returns that
match when its letter prefix is in the registry and nothing otherwise —
even when a later valid-prefix match exists. -/
theorem claim_C6_amended (t : List Char) (i : Nat) (code digits : List Char)
    (hb : boundaryBefore (prevAt none (t.map Char.toUpper) i) = true)
    (hm : jobPatternAt ((t.map Char.toUpper).drop i) = some (code, digits))
    (hmin : ∀ j, j < i →
      ¬(boundaryBefore (prevAt none (t.map Char.toUpper) j) = true ∧
        (jobPatternAt ((t.map Char.toUpper).drop j)).isSome = true)) :
    extract_job_number t =
      if code ∈ VALID_CLIENT_CODES then some (code ++ ' ' :: digits) else none := by
  have hscan := scanJobPattern_eq_of_first (t.map Char.toUpper) none i
    (code, digits) hb hm hmin
  have hne : t.isEmpty = false := by
    cases t with
    | nil => simp [jobPatternAt_nil] at hm
    | cons a l => rfl
  simp only [extract_job_number, hne, Bool.false_eq_true, if_false, hscan]

/-- C6 witness: the example of the spec, via the amended theorem at the
leftmost match position 4. -/
theorem claim_C6_witness :
    extract_job_number (lc "re: TOW 023 update") = some (lc "TOW 023") := by
  have h := claim_C6_amended (lc "re: TOW 023 update") 4 (lc "TOW") (lc "023")
    (by decide) (by decide) (by decide)
  rw [if_pos (by decide : lc "TOW" ∈ VALID_CLIENT_CODES)] at h
  rw [h]
  decide

/-- C7 (confirmed).  If a valid client code occurs standalone in the text
and a client-name alias mapping to a different code occurs as a substring,
and that different code does not itself occur standalone, then
`extract_client_code_from_content` answers from the standalone phase: some
code with a standalone occurrence, never the code of the alias. -/
theorem claim_C7 (t c n c2 : List Char) (hc : c ∈ VALID_CLIENT_CODES)
    (hst : hasStandalone c (t.map Char.toUpper) = true)
    (hmap : (n, c2) ∈ CLIENT_NAME_MAPPING)
    (hsub : isSubstring n (t.map Char.toLower) = true)
    (hne : c2 ≠ c)
    (hc2 : hasStandalone c2 (t.map Char.toUpper) = false) :
    ∃ d, extract_client_code_from_content t = some d ∧
      d ∈ VALID_CLIENT_CODES ∧ hasStandalone d (t.map Char.toUpper) = true ∧
      d ≠ c2 := by
  have hnil : t.isEmpty = false := by
    have h2 := hasStandalone_ne_nil _ _ hst
    cases t with
    | nil => simp at h2
    | cons a l => rfl
  have hsome : (VALID_CLIENT_CODES.find? fun code =>
      hasStandalone code (t.map Char.toUpper)).isSome = true := by
    rw [List.find?_isSome]
    exact ⟨c, hc, hst⟩
  obtain ⟨d, hd⟩ := Option.isSome_iff_exists.mp hsome
  have hpd : hasStandalone d (t.map Char.toUpper) = true := by
    have h := List.find?_some hd
    simpa using h
  have hdmem : d ∈ VALID_CLIENT_CODES := List.mem_of_find?_eq_some hd
  refine ⟨d, ?_, hdmem, hpd, ?_⟩
  · simp only [extract_client_code_from_content, hnil, Bool.false_eq_true,
      if_false, hd]
  · intro hdc
    rw [hdc, hc2] at hpd
    exact absurd hpd (by simp)

/-- C7 witness: `FST` appears standalone while `tower insurance` (alias of
`TOW`) appears only as a substring; the standalone phase wins. -/
theorem claim_C7_witness :
    ∃ d, extract_client_code_from_content (lc "FST brief for tower insurance") =
      some d ∧ d ∈ VALID_CLIENT_CODES ∧
      hasStandalone d ((lc "FST brief for tower insurance").map Char.toUpper) =
        true ∧ d ≠ lc "TOW" :=
  claim_C7 (lc "FST brief for tower insurance") (lc "FST")
    (lc "tower insurance") (lc "TOW") (by decide) (by decide) (by decide)
    (by decide) (by decide) (by decide)

/-- C10 (confirmed).  `ONE` is the first entry of the registry, and the
standalone phase searches the uppercased text in registry order, so any
text containing the word `one` standalone (in any case, hence as `ONE` in
the uppercased text) yields client code `ONE`, whatever else the text
contains. -/
theorem claim_C10 (t : List Char)
    (h : StandaloneOccur (lc "ONE") (t.map Char.toUpper)) :
    extract_client_code_from_content t = some (lc "ONE") := by
  have hs := hasStandalone_of_occur (lc "ONE") (t.map Char.toUpper)
    (by decide) h
  have hnil : t.isEmpty = false := by
    have h2 := hasStandalone_ne_nil _ _ hs
    cases t with
    | nil => simp at h2
    | cons a l => rfl
  have hfind : (VALID_CLIENT_CODES.find? fun code =>
      hasStandalone code (t.map Char.toUpper)) = some (lc "ONE") := by
    unfold VALID_CLIENT_CODES
    exact List.find?_cons_of_pos _ hs
  simp only [extract_client_code_from_content, hnil, Bool.false_eq_true,
    if_false, hfind]

/-- C10 witness: the word `one` wins even though `SKY` also appears as a
standalone code. -/
theorem claim_C10_witness :
    extract_client_code_from_content (lc "is one of the sky options") =
      some (lc "ONE") :=
  claim_C10 (lc "is one of the sky options")
    ⟨lc "IS ", lc " OF THE SKY OPTIONS", by decide,
      Or.inr ⟨' ', by decide, by decide⟩, Or.inr ⟨' ', by decide, by decide⟩⟩

/-- C1 (confirmed).  On a request that reaches classification (no
duplicate, no pending clarification), if the oracle suggests a non-null
job number different from the Step 2 extraction and the store lookup of
that suggestion finds no project, the final decision is forced to route
`clarify` with confidence `low` and a not-found reason — whatever route
and confidence the oracle returned. -/
theorem claim_C1 (req : TrafficRequest) (f : Faults)
    (oracle : OracleContext → OracleRouting) (s : StoreState) (jn : List Char)
    (h0 : req.emailContent.isEmpty = false)
    (h1 : step0 req f s = none)
    (h2 : step1Pending req f s = none)
    (hjn : (oracle (oracleContextOf req f s)).jobNumber = some jn)
    (hnn : jn.isEmpty = false)
    (hdiff : some jn ≠ extractedJobNumberOf req)
    (hlook : get_project_by_job_number true f.projOracleF jn s = none) :
    ∃ r st, traffic req f oracle s = TrafficResult.ok r st ∧
      r.route = lc "clarify" ∧ r.confidence = some (lc "low") ∧
      r.reason = lc "Matched job " ++ jn ++ lc " not found in system" ∧
      r.jobNumber = some jn := by
  rw [traffic_eq_classify req f oracle s h0 h1 h2]
  have hadj : reconcile f.projOracleF s (oracle (oracleContextOf req f s))
      (extractedJobNumberOf req) (step2Project req f s) =
      { route := lc "clarify", confidence := lc "low",
        reason := lc "Matched job " ++ jn ++ lc " not found in system",
        enrichment := none } := by
    unfold reconcile
    rw [if_neg (fun hand => hdiff (hjn ▸ hand.2)),
      if_pos ⟨by simp [optTruthy, hjn, hnn], fun hb => hdiff (hjn ▸ hb)⟩]
    rw [hjn]
    simp [hlook]
  simp only [classifyRoute, hadj]
  exact ⟨_, _, rfl, rfl, rfl, rfl, by simp [classifyResponse, hjn]⟩

/-- A plain message with no job number, message id, or conversation id. -/
def reqHello : TrafficRequest := { emailContent := lc "hello" }

/-- An oracle that always suggests the non-existent job `XYZ 999` with
route `update` and confidence `high`. -/
def xyzOracle : OracleContext → OracleRouting := fun _ =>
  { route := lc "update", confidence := lc "high",
    jobNumber := some (lc "XYZ 999"), reason := lc "matched" }

/-- C1 witness: oracle suggests the non-existent `XYZ 999` on an empty
store; the `update`/`high` suggestion is overridden to `clarify`/`low`. -/
theorem claim_C1_witness :
    ∃ r st, traffic reqHello noFaults xyzOracle {} = TrafficResult.ok r st ∧
      r.route = lc "clarify" ∧ r.confidence = some (lc "low") ∧
      r.reason = lc "Matched job " ++ lc "XYZ 999" ++ lc " not found in system" ∧
      r.jobNumber = some (lc "XYZ 999") :=
  claim_C1 reqHello noFaults xyzOracle {} (lc "XYZ 999") (by decide)
    (by decide) (by decide) rfl (by decide) (by decide) (by decide)

/-- C9 (confirmed).  When Step 2 extracts a job number that fails
validation and the oracle suggests that same number, reconciliation does
nothing: no enrichment, no clarify override — the route and
confidence of the oracle stand, and the decision still carries the
unvalidated number. -/
theorem claim_C9 (req : TrafficRequest) (f : Faults)
    (oracle : OracleContext → OracleRouting) (s : StoreState) (jn : List Char)
    (h0 : req.emailContent.isEmpty = false)
    (h1 : step0 req f s = none)
    (h2 : step1Pending req f s = none)
    (hx : extractedJobNumberOf req = some jn)
    (hproj : get_project_by_job_number true f.projStep2F jn s = none)
    (hjn : (oracle (oracleContextOf req f s)).jobNumber = some jn) :
    ∃ r st, traffic req f oracle s = TrafficResult.ok r st ∧
      r.route = (oracle (oracleContextOf req f s)).route ∧
      r.confidence = some (oracle (oracleContextOf req f s)).confidence ∧
      r.reason = (oracle (oracleContextOf req f s)).reason ∧
      r.jobNumber = some jn ∧ r.enrichment = none := by
  rw [traffic_eq_classify req f oracle s h0 h1 h2]
  have hsp : step2Project req f s = none := by
    unfold step2Project
    rw [hx]
    exact hproj
  have hadj : reconcile f.projOracleF s (oracle (oracleContextOf req f s))
      (extractedJobNumberOf req) (step2Project req f s) =
      { route := (oracle (oracleContextOf req f s)).route,
        confidence := (oracle (oracleContextOf req f s)).confidence,
        reason := (oracle (oracleContextOf req f s)).reason,
        enrichment := none } := by
    unfold reconcile
    rw [if_neg (fun hand => by rw [hsp] at hand; simp at hand),
      if_neg (fun hand => hand.2 (by rw [hjn, hx]))]
  simp only [classifyRoute, hadj]
  exact ⟨_, _, rfl, rfl, rfl, rfl, by simp [classifyResponse, hjn], rfl⟩

/-- A message whose body carries the unregistered job `ONE 999`. -/
def reqOne999 : TrafficRequest := { emailContent := lc "ONE 999 please" }

/-- An oracle that echoes the extracted `ONE 999` with route `update`. -/
def echoOne999Oracle : OracleContext → OracleRouting := fun _ =>
  { route := lc "update", confidence := lc "medium",
    jobNumber := some (lc "ONE 999"), reason := lc "explicit number" }

/-- C9 witness: extracted `ONE 999` does not exist; the oracle echoes it;
the `update`/`medium` suggestion passes through unenriched. -/
theorem claim_C9_witness :
    ∃ r st, traffic reqOne999 noFaults echoOne999Oracle {} =
        TrafficResult.ok r st ∧
      r.route = lc "update" ∧ r.confidence = some (lc "medium") ∧
      r.reason = lc "explicit number" ∧
      r.jobNumber = some (lc "ONE 999") ∧ r.enrichment = none :=
  claim_C9 reqOne999 noFaults echoOne999Oracle {} (lc "ONE 999") (by decide)
    (by decide) (by decide) (by decide) (by decide) rfl

/-- C2 (corrected).  The final clause of the claim — "submitting the same
message identifier twice yields `duplicate` on the second call" — fails:
a reply to a pending clarification whose extracted job number does not
validate returns `clarify` WITHOUT writing any TrafficLogEntry, so
resubmitting the same message id is processed again (route `clarify`,
not `duplicate`).  Concretely: `M6` on conversation `C1` (open pending
entry, body `ONE 111`, no such project) leaves the store unchanged, and
the identical second call still answers `clarify`. -/
theorem claim_C2_counterexample :
    resultState (traffic reqBodyInvalid noFaults clarifyOracle storePending) =
      some storePending ∧
    ((resultState (traffic reqBodyInvalid noFaults clarifyOracle
        storePending)).bind fun s1 =>
      (resultResp (traffic reqBodyInvalid noFaults clarifyOracle s1)).map
        fun r => r.route) = some (lc "clarify") ∧
    lc "clarify" ≠ lc "duplicate" := by decide

/-- C2 (amended).  The short-circuit itself holds: whenever the message
carries an identifier that already has a TrafficLogEntry (and the dedup
lookup does not fail), the request returns route `duplicate` carrying the
route and record id of the original entry, with the store unchanged and the
classifier never consulted (the result is the same for every oracle).
Hence a second submission yields `duplicate` exactly when the first call
actually logged an entry — which every path does except the two clarify
replies that return without logging. -/
theorem claim_C2_amended (req : TrafficRequest) (f : Faults)
    (oracle : OracleContext → OracleRouting) (s : StoreState)
    (e : TrafficRecord)
    (h0 : req.emailContent.isEmpty = false)
    (hmid : req.internetMessageId.isEmpty = false)
    (hf : f.dupF = false)
    (he : (s.traffic.filter fun r =>
      r.fields.internetMessageId == req.internetMessageId).head? = some e) :
    traffic req f oracle s = TrafficResult.ok (duplicateResponse e) s ∧
    (duplicateResponse e).route = lc "duplicate" ∧
    (duplicateResponse e).originalRoute = some e.fields.Route ∧
    (duplicateResponse e).originalRecordId = some e.id ∧
    (duplicateResponse e).reason = lc "Email already processed" := by
  have hstep0 : step0 req f s = some e := by
    unfold step0 check_duplicate_email
    simp [hmid, hf, he]
  refine ⟨?_, rfl, rfl, rfl, rfl⟩
  simp [traffic, h0, hstep0]

/-- C2 witness: resubmitting `M0` (already logged in the store) yields
the duplicate short-circuit with the original route. -/
theorem claim_C2_witness :
    traffic reqResendM0 noFaults clarifyOracle storePending =
      TrafficResult.ok (duplicateResponse pendingRec) storePending ∧
    (duplicateResponse pendingRec).route = lc "duplicate" ∧
    (duplicateResponse pendingRec).originalRoute = some (lc "clarify") ∧
    (duplicateResponse pendingRec).originalRecordId = some 0 ∧
    (duplicateResponse pendingRec).reason = lc "Email already processed" := by
  have h := claim_C2_amended reqResendM0 noFaults clarifyOracle storePending
    pendingRec (by decide) (by decide) rfl (by decide)
  exact ⟨h.1, h.2.1, by decide, by decide, h.2.2.2.2⟩

/-- No triage directive is an affirmative, so an affirmative reply never
takes the (earlier-checked) triage branch. -/
theorem isTriage_eq_false_of_isYes (cu : List Char) (h : isYes cu = true) :
    isTriage cu = false := by
  cases htr : isTriage cu with
  | false => rfl
  | true =>
    exfalso
    have hm : cu ∈ triageWords := by
      have := htr
      unfold isTriage at this
      exact List.mem_of_elem_eq_true this
    unfold triageWords at hm
    simp only [List.mem_cons, List.not_mem_nil, or_false] at hm
    rcases hm with rfl | rfl | rfl | rfl <;> exact absurd h (by decide)

/-- C4 (corrected).  The claim quantifies over every reply whose body is
an affirmative, but the affirmative branch only runs when no job number
is extractable from the reply, and extraction reads the SUBJECT first:
with pending job `ONE 010` validating, body exactly `"Yes"`, and subject
`TOW 023` (not in the store), the code answers `clarify` and leaves the
pending entry open — not `update`/`ONE 010`/resolved as claimed. -/
theorem claim_C4_counterexample :
    isYes (contentUpper (lc "Yes")) = true ∧
    (get_project_by_job_number true false (lc "ONE 010") storePending).isSome =
      true ∧
    (resultResp (traffic reqYesSubjectJob noFaults clarifyOracle
      storePending)).map (fun r => r.route) = some (lc "clarify") ∧
    resultState (traffic reqYesSubjectJob noFaults clarifyOracle storePending) =
      some storePending := by decide

/-- C4 (amended).  For a reply to a pending clarification from which no
job number is extractable (subject or body) and whose body normalizes to
an affirmative, if the stored job number of the pending entry validates, the
decision is route `update`, confidence `high`, that job number, enriched
from the project; the pending entry is marked `resolved` and a new
`processed` entry is logged. -/
theorem claim_C4_amended (req : TrafficRequest) (f : Faults)
    (oracle : OracleContext → OracleRouting) (s : StoreState)
    (p : TrafficRecord) (pr : Project)
    (h0 : req.emailContent.isEmpty = false)
    (h1 : step0 req f s = none)
    (h2 : step1Pending req f s = some p)
    (hyes : isYes (contentUpper req.emailContent) = true)
    (hnox : extractedJobNumberOf req = none)
    (hjob : p.fields.JobNumber.isEmpty = false)
    (hsf : f.projSuggestedF = false)
    (hlf : f.logF = false)
    (huf : f.updateF = false)
    (hproj : get_project_by_job_number true false p.fields.JobNumber s = some pr) :
    traffic req f oracle s =
      TrafficResult.ok (confirmedResponse req p.fields.JobNumber pr)
        (update_traffic_record true false p.id { status := some (lc "resolved") }
          (log_to_traffic_table true false req.internetMessageId
            req.conversationId (lc "update") (lc "processed")
            (some p.fields.JobNumber) req.senderEmail req.subjectLine s).2).2 ∧
    (confirmedResponse req p.fields.JobNumber pr).route = lc "update" ∧
    (confirmedResponse req p.fields.JobNumber pr).confidence =
      some (lc "high") ∧
    (confirmedResponse req p.fields.JobNumber pr).jobNumber =
      some p.fields.JobNumber ∧
    (confirmedResponse req p.fields.JobNumber pr).enrichment =
      some (enrichOf pr) := by
  have htr := isTriage_eq_false_of_isYes _ hyes
  refine ⟨?_, rfl, rfl, rfl, rfl⟩
  rw [traffic_eq_handlePending req f oracle s p h0 h1 h2]
  simp only [handlePendingReply, htr, Bool.false_eq_true, if_false, hnox,
    hyes, if_true, hjob, hsf, hlf, huf, hproj]

/-- C4 witness: the instance given by the spec — body exactly `"Yes"`, stored
job `ONE 010`. -/
theorem claim_C4_witness :
    (resultResp (traffic reqYesPlain noFaults clarifyOracle storePending)).map
      (fun r => (r.route, r.confidence, r.jobNumber)) =
      some (lc "update", some (lc "high"), some (lc "ONE 010")) := by
  have h := claim_C4_amended reqYesPlain noFaults clarifyOracle storePending
    pendingRec projOne010Lookup (by decide) (by decide) (by decide) (by decide)
    (by decide) (by decide) rfl rfl rfl (by decide)
  rw [h.1]
  decide

/-- C5 (corrected).  The claim speaks of the BODY of the reply containing an
invalid job number, but Step 1 extraction reads the subject first: with
subject `ONE 100` (valid) and body `ONE 999` (invalid), the code routes
`update` and writes a new log entry — not `clarify`/unchanged as claimed. -/
theorem claim_C5_counterexample :
    extract_job_number (lc "ONE 999") = some (lc "ONE 999") ∧
    get_project_by_job_number true false (lc "ONE 999") storePending2 = none ∧
    (resultResp (traffic reqSubjectValidBodyInvalid noFaults clarifyOracle
      storePending2)).map (fun r => r.route) = some (lc "update") ∧
    (resultState (traffic reqSubjectValidBodyInvalid noFaults clarifyOracle
      storePending2)).map (fun st => st.traffic.length) = some 2 := by decide

/-- C5 (amended).  For a reply to a pending clarification that is not a
triage directive and whose EXTRACTED job number (subject first, then
body) fails validation, the response is route `clarify`, confidence
`low`, with the not-found reason, and the store is untouched: the pending
entry stays open and no new entry is logged. -/
theorem claim_C5_amended (req : TrafficRequest) (f : Faults)
    (oracle : OracleContext → OracleRouting) (s : StoreState)
    (p : TrafficRecord) (rj : List Char)
    (h0 : req.emailContent.isEmpty = false)
    (h1 : step0 req f s = none)
    (h2 : step1Pending req f s = some p)
    (htr : isTriage (contentUpper req.emailContent) = false)
    (hx : extractedJobNumberOf req = some rj)
    (hlook : get_project_by_job_number true f.projReplyF rj s = none) :
    traffic req f oracle s = TrafficResult.ok (jobNotFoundResponse req rj) s ∧
    (jobNotFoundResponse req rj).route = lc "clarify" ∧
    (jobNotFoundResponse req rj).confidence = some (lc "low") ∧
    (jobNotFoundResponse req rj).reason =
      lc "Job " ++ rj ++ lc " not found in system" ∧
    (jobNotFoundResponse req rj).jobNumber = none := by
  refine ⟨?_, rfl, rfl, rfl, rfl⟩
  rw [traffic_eq_handlePending req f oracle s p h0 h1 h2]
  simp only [handlePendingReply, htr, Bool.false_eq_true, if_false, hx, hlook]

/-- C5 witness: reply `ONE 111` (no such project) to the open
clarification: route `clarify`, store untouched. -/
theorem claim_C5_witness :
    traffic reqBodyInvalid noFaults clarifyOracle storePending =
      TrafficResult.ok (jobNotFoundResponse reqBodyInvalid (lc "ONE 111"))
        storePending ∧
    (jobNotFoundResponse reqBodyInvalid (lc "ONE 111")).route = lc "clarify" ∧
    (jobNotFoundResponse reqBodyInvalid (lc "ONE 111")).confidence =
      some (lc "low") ∧
    (jobNotFoundResponse reqBodyInvalid (lc "ONE 111")).reason =
      lc "Job " ++ lc "ONE 111" ++ lc " not found in system" ∧
    (jobNotFoundResponse reqBodyInvalid (lc "ONE 111")).jobNumber = none :=
  claim_C5_amended reqBodyInvalid noFaults clarifyOracle storePending
    pendingRec (lc "ONE 111") (by decide) (by decide) (by decide) (by decide)
    (by decide) (by decide)

/-- C3 (corrected).  The at-most-one-pending invariant fails precisely
on the fall-through the claim says is covered: starting from an empty
store, a first message classified `clarify` logs one pending entry for
conversation `C1`; a free-text reply (`"maybe tomorrow"`) matches no
Step 1 branch, falls through to classification, ends in `clarify`, and a
SECOND pending entry is logged for `C1` while the first stays open. -/
theorem claim_C3_counterexample :
    ((resultState (traffic reqFresh noFaults clarifyOracle {})).bind fun s1 =>
      (resultState (traffic reqAmbiguous noFaults clarifyOracle s1)).map fun s2 =>
        (pendingCount (lc "C1") s1, pendingCount (lc "C1") s2)) =
      some (1, 2) := by decide

/-- C3 (amended).  A reply that IS handled by one of the Step 1 branches
(a triage directive, an extractable job number, or an affirmative) never
increases the pending count of its conversation: each such branch either
resolves the pending entry and logs a `processed` entry, or returns with
the store untouched.  Only the fall-through of an unrecognized reply into
a `clarify`/`confirm` classification can add a second pending entry. -/
theorem claim_C3_amended (req : TrafficRequest) (f : Faults)
    (oracle : OracleContext → OracleRouting) (s : StoreState)
    (p : TrafficRecord)
    (h0 : req.emailContent.isEmpty = false)
    (h1 : step0 req f s = none)
    (h2 : step1Pending req f s = some p)
    (hbranch : isTriage (contentUpper req.emailContent) = true ∨
      (extractedJobNumberOf req).isSome = true ∨
      isYes (contentUpper req.emailContent) = true) :
    ∃ st, resultState (traffic req f oracle s) = some st ∧
      pendingCount req.conversationId st ≤ pendingCount req.conversationId s := by
  rw [traffic_eq_handlePending req f oracle s p h0 h1 h2]
  simp only [handlePendingReply]
  by_cases htr : isTriage (contentUpper req.emailContent) = true
  · rw [if_pos htr]
    refine ⟨_, rfl, ?_⟩
    calc pendingCount req.conversationId
          (update_traffic_record true f.updateF p.id
            { status := some (lc "resolved") }
            (log_to_traffic_table true f.logF req.internetMessageId
              req.conversationId (lc "triage") (lc "processed") none
              req.senderEmail req.subjectLine s).2).2
        ≤ pendingCount req.conversationId
            (log_to_traffic_table true f.logF req.internetMessageId
              req.conversationId (lc "triage") (lc "processed") none
              req.senderEmail req.subjectLine s).2 :=
          pendingCount_update_resolved _ _ _ _ rfl _ _
      _ = pendingCount req.conversationId s :=
          pendingCount_log_processed _ _ _ _ _ _ _ _ _ _
  · rw [if_neg htr]
    cases hx : extractedJobNumberOf req with
    | some rj =>
      dsimp only
      cases hrp : get_project_by_job_number true f.projReplyF rj s with
      | some project =>
        refine ⟨_, rfl, ?_⟩
        calc pendingCount req.conversationId
              (update_traffic_record true f.updateF p.id
                { status := some (lc "resolved"), jobNumber := some rj }
                (log_to_traffic_table true f.logF req.internetMessageId
                  req.conversationId (lc "update") (lc "processed") (some rj)
                  req.senderEmail req.subjectLine s).2).2
            ≤ pendingCount req.conversationId
                (log_to_traffic_table true f.logF req.internetMessageId
                  req.conversationId (lc "update") (lc "processed") (some rj)
                  req.senderEmail req.subjectLine s).2 :=
              pendingCount_update_resolved _ _ _ _ rfl _ _
          _ = pendingCount req.conversationId s :=
              pendingCount_log_processed _ _ _ _ _ _ _ _ _ _
      | none => exact ⟨s, rfl, Nat.le_refl _⟩
    | none =>
      have hyes : isYes (contentUpper req.emailContent) = true := by
        rcases hbranch with h | h | h
        · exact absurd h htr
        · rw [hx] at h
          exact absurd h (by simp)
        · exact h
      dsimp only
      rw [if_pos hyes]
      cases hsg : (if p.fields.JobNumber.isEmpty then none
          else get_project_by_job_number true f.projSuggestedF
            p.fields.JobNumber s) with
      | some project =>
        refine ⟨_, rfl, ?_⟩
        calc pendingCount req.conversationId
              (update_traffic_record true f.updateF p.id
                { status := some (lc "resolved") }
                (log_to_traffic_table true f.logF req.internetMessageId
                  req.conversationId (lc "update") (lc "processed")
                  (some p.fields.JobNumber) req.senderEmail
                  req.subjectLine s).2).2
            ≤ pendingCount req.conversationId
                (log_to_traffic_table true f.logF req.internetMessageId
                  req.conversationId (lc "update") (lc "processed")
                  (some p.fields.JobNumber) req.senderEmail
                  req.subjectLine s).2 :=
              pendingCount_update_resolved _ _ _ _ rfl _ _
          _ = pendingCount req.conversationId s :=
              pendingCount_log_processed _ _ _ _ _ _ _ _ _ _
      | none => exact ⟨s, rfl, Nat.le_refl _⟩

/-- C3 witness: the affirmative reply `"Yes"` resolves the open pending
entry for `C1`, so its pending count does not grow. -/
theorem claim_C3_witness :
    ∃ st, resultState (traffic reqYesPlain noFaults clarifyOracle
        storePending) = some st ∧
      pendingCount reqYesPlain.conversationId st ≤
        pendingCount reqYesPlain.conversationId storePending :=
  claim_C3_amended reqYesPlain noFaults clarifyOracle storePending pendingRec
    (by decide) (by decide) (by decide) (Or.inr (Or.inr (by decide)))

/-- All read-side store calls raise (a store outage). -/
def failReads (f : Faults) : Faults :=
  { f with dupF := true, pendingF := true, projReplyF := true,
           projSuggestedF := true, projStep2F := true, projOracleF := true,
           activeF := true }

/-- All read-side store calls succeed. -/
def okReads (f : Faults) : Faults :=
  { f with dupF := false, pendingF := false, projReplyF := false,
           projSuggestedF := false, projStep2F := false, projOracleF := false,
           activeF := false }

/-- The same store with no records at all. -/
def clearStore (s : StoreState) : StoreState :=
  { s with traffic := [], projects := [] }

theorem check_duplicate_email_fail (hk : Bool) (mid : List Char)
    (s : StoreState) : check_duplicate_email hk true mid s = none := by
  simp [check_duplicate_email]

theorem check_pending_clarify_fail (hk : Bool) (cid : List Char)
    (s : StoreState) : check_pending_clarify hk true cid s = none := by
  simp [check_pending_clarify]

theorem get_project_by_job_number_fail (hk : Bool) (jn : List Char)
    (s : StoreState) : get_project_by_job_number hk true jn s = none := by
  simp [get_project_by_job_number]

theorem get_active_jobs_for_client_fail (hk : Bool) (cc : List Char)
    (s : StoreState) : get_active_jobs_for_client hk true cc s = [] := by
  simp [get_active_jobs_for_client]

theorem check_duplicate_email_empty (hk fl : Bool) (mid : List Char)
    (s : StoreState) : check_duplicate_email hk fl mid (clearStore s) = none := by
  simp [check_duplicate_email, clearStore]

theorem check_pending_clarify_empty (hk fl : Bool) (cid : List Char)
    (s : StoreState) : check_pending_clarify hk fl cid (clearStore s) = none := by
  simp [check_pending_clarify, clearStore]

theorem get_project_by_job_number_empty (hk fl : Bool) (jn : List Char)
    (s : StoreState) :
    get_project_by_job_number hk fl jn (clearStore s) = none := by
  simp [get_project_by_job_number, clearStore]

theorem get_active_jobs_for_client_empty (hk fl : Bool) (cc : List Char)
    (s : StoreState) :
    get_active_jobs_for_client hk fl cc (clearStore s) = [] := by
  simp [get_active_jobs_for_client, clearStore]

theorem step0_fail (req : TrafficRequest) (f : Faults) (s : StoreState) :
    step0 req (failReads f) s = none := by
  unfold step0
  split
  · rfl
  · exact check_duplicate_email_fail _ _ _

theorem step0_empty (req : TrafficRequest) (f : Faults) (s : StoreState) :
    step0 req f (clearStore s) = none := by
  unfold step0
  split
  · rfl
  · exact check_duplicate_email_empty _ _ _ _

theorem step1Pending_fail (req : TrafficRequest) (f : Faults) (s : StoreState) :
    step1Pending req (failReads f) s = none := by
  unfold step1Pending
  split
  · rfl
  · exact check_pending_clarify_fail _ _ _

theorem step1Pending_empty (req : TrafficRequest) (f : Faults) (s : StoreState) :
    step1Pending req f (clearStore s) = none := by
  unfold step1Pending
  split
  · rfl
  · exact check_pending_clarify_empty _ _ _ _

theorem step2Project_fail (req : TrafficRequest) (f : Faults) (s : StoreState) :
    step2Project req (failReads f) s = none := by
  unfold step2Project
  cases extractedJobNumberOf req with
  | some jn => exact get_project_by_job_number_fail _ _ _
  | none => rfl

theorem step2Project_empty (req : TrafficRequest) (f : Faults) (s : StoreState) :
    step2Project req f (clearStore s) = none := by
  unfold step2Project
  cases extractedJobNumberOf req with
  | some jn => exact get_project_by_job_number_empty _ _ _ _
  | none => rfl

theorem activeJobsOf_fail (req : TrafficRequest) (f : Faults) (s : StoreState) :
    activeJobsOf req (failReads f) s = [] := by
  unfold activeJobsOf
  split
  · exact get_active_jobs_for_client_fail _ _ _
  · rfl

theorem activeJobsOf_empty (req : TrafficRequest) (f : Faults) (s : StoreState) :
    activeJobsOf req f (clearStore s) = [] := by
  unfold activeJobsOf
  split
  · exact get_active_jobs_for_client_empty _ _ _ _
  · rfl

theorem oracleContextOf_outage (req : TrafficRequest) (f : Faults)
    (s : StoreState) :
    oracleContextOf req (failReads f) s =
      oracleContextOf req (okReads f) (clearStore s) := by
  unfold oracleContextOf
  rw [step2Project_fail, step2Project_empty, activeJobsOf_fail,
    activeJobsOf_empty]

theorem reconcile_outage (f : Faults) (s : StoreState)
    (routing : OracleRouting) (jn : Option (List Char)) :
    reconcile (failReads f).projOracleF s routing jn none =
      reconcile (okReads f).projOracleF (clearStore s) routing jn none := by
  show reconcile true s routing jn none =
    reconcile false (clearStore s) routing jn none
  unfold reconcile
  simp only [get_project_by_job_number_fail, get_project_by_job_number_empty]

/-- C8 (confirmed).  Each wrapped Record Store read degrades to its
no-match value on failure (`None` for the duplicate, pending and project
lookups; `[]` for the active-jobs listing), and a request served during a
full store outage is never aborted: it still produces a decision, and
that decision is exactly the one produced against an empty store — the
system behaves as if no duplicate, no pending entry and no job exists. -/
theorem claim_C8 :
    (∀ hk mid s, check_duplicate_email hk true mid s = none) ∧
    (∀ hk cid s, check_pending_clarify hk true cid s = none) ∧
    (∀ hk jn s, get_project_by_job_number hk true jn s = none) ∧
    (∀ hk cc s, get_active_jobs_for_client hk true cc s = []) ∧
    (∀ (req : TrafficRequest) (f : Faults)
      (oracle : OracleContext → OracleRouting) (s : StoreState),
      req.emailContent.isEmpty = false →
      (∃ r st, traffic req (failReads f) oracle s = TrafficResult.ok r st) ∧
      resultResp (traffic req (failReads f) oracle s) =
        resultResp (traffic req (okReads f) oracle (clearStore s))) := by
  refine ⟨check_duplicate_email_fail, check_pending_clarify_fail,
    get_project_by_job_number_fail, get_active_jobs_for_client_fail, ?_⟩
  intro req f oracle s h0
  have hA : traffic req (failReads f) oracle s =
      classifyRoute req (failReads f) oracle s :=
    traffic_eq_classify _ _ _ _ h0 (step0_fail _ _ _) (step1Pending_fail _ _ _)
  have hB : traffic req (okReads f) oracle (clearStore s) =
      classifyRoute req (okReads f) oracle (clearStore s) :=
    traffic_eq_classify _ _ _ _ h0 (step0_empty _ _ _) (step1Pending_empty _ _ _)
  constructor
  · exact ⟨_, _, hA.trans rfl⟩
  · rw [hA, hB]
    simp only [classifyRoute, resultResp]
    rw [oracleContextOf_outage, step2Project_fail, step2Project_empty,
      reconcile_outage]

/-- C8 witness: the degradation lemmas and outage equivalence at concrete
inputs. -/
theorem claim_C8_witness :
    check_duplicate_email true true (lc "M0") storePending = none ∧
    check_pending_clarify true true (lc "C1") storePending = none ∧
    get_project_by_job_number true true (lc "ONE 010") storePending = none ∧
    get_active_jobs_for_client true true (lc "ONE") storePending = [] ∧
    (∃ r st, traffic reqFresh (failReads noFaults) clarifyOracle storePending =
      TrafficResult.ok r st) ∧
    resultResp (traffic reqFresh (failReads noFaults) clarifyOracle
        storePending) =
      resultResp (traffic reqFresh (okReads noFaults) clarifyOracle
        (clearStore storePending)) := by
  obtain ⟨a, b, c, d, e⟩ := claim_C8
  obtain ⟨e1, e2⟩ := e reqFresh noFaults clarifyOracle storePending (by decide)
  exact ⟨a true (lc "M0") storePending, b true (lc "C1") storePending,
    c true (lc "ONE 010") storePending, d true (lc "ONE") storePending, e1, e2⟩

end DotTraffic
